import Mathlib

/-!
Verification of the shelltrax single-track audio player core
(`src/player/mod.rs`) against its natural-language specification.

Shallow embedding conventions:
* Audio samples (`f32` in the source) are modelled as rationals `ℚ`;
  division by a format's scaling constant is exact here, abstracting the
  float rounding of the source (the claims under test are about which
  divisor is applied and the resulting order/contents of the queue, not
  about ulp-level rounding).
* The `VecDeque<f32>` sample queue (`sample_buf`, line 107) is a
  `List ℚ` with the front at the head: `pop_front` reads the head,
  `extend` appends at the back.
* Atomic booleans are plain `Bool` fields; each concurrent action
  (one audio-callback invocation, one decode-loop iteration, one
  controller method call) is a pure state transformer, so interleavings
  are sequences of these transformers.
-/

/-- State shared with the audio callback closure (lines 118-135):
the sample queue `sample_buf`, the `decoder_done` and `autoplay_trigger`
atomics, and the `paused_flag` atomic. -/
structure CallbackState where
  queue : List ℚ
  decoderDone : Bool
  autoplayTrigger : Bool
  paused : Bool
deriving DecidableEq

/-- The fill loop of the callback (lines 128-130): for each of the `n`
output slots, `buf.pop_front().unwrap_or(0.0)`.  Returns the written
output block and the remaining queue. -/
def fillBlock : List ℚ → Nat → List ℚ × List ℚ
  | q, 0 => ([], q)
  | [], Nat.succ n =>
      let r := fillBlock [] n
      (0 :: r.1, r.2)
  | x :: q, Nat.succ n =>
      let r := fillBlock q n
      (x :: r.1, r.2)

/-- One invocation of the audio callback closure (lines 118-135) asked
for `n` output samples.  If `paused_flag` is set, all slots are written
with `0.0` and the closure returns at once (lines 121-126); otherwise the
fill loop runs (lines 128-130) and then, if the queue is now empty and
`decoder_done` holds, `autoplay_trigger` is stored `true`
(lines 132-134). -/
def audioCallback (s : CallbackState) (n : Nat) : List ℚ × CallbackState :=
  if s.paused then
    (List.replicate n 0, s)
  else
    let r := fillBlock s.queue n
    let trigger := if r.2.isEmpty && s.decoderDone then true else s.autoplayTrigger
    (r.1, { s with queue := r.2, autoplayTrigger := trigger })

/-- `decode_buffer.lock().unwrap().extend(samples)` (line 234): the decode
thread appends a block of normalized samples at the back of the queue. -/
def pushSamples (q : List ℚ) (samples : List ℚ) : List ℚ :=
  q ++ samples

/-- Closed form of the fill loop: the first `n` queued samples in order,
padded with zeros, and the rest of the queue. -/
theorem fillBlock_eq (n : Nat) :
    ∀ q : List ℚ, fillBlock q n = (q.take n ++ List.replicate (n - q.length) 0, q.drop n) := by
  induction n with
  | zero => intro q; cases q <;> simp [fillBlock]
  | succ n ih =>
      intro q
      cases q with
      | nil => simp [fillBlock, ih [], List.replicate_succ]
      | cons x q => simp [fillBlock, ih q]

/-- A decoded frame buffer as the source's `match decoded` sees it
(lines 183-232): one constructor per `AudioBufferRef` variant handled,
carrying `buf.frames()` and per-channel sample lists (`buf.chan(ch)`),
plus `unsupported` for all variants reaching the catch-all `_` arm
(lines 228-231).  Integer variants carry `ℤ` (`S24` already widened by
`into_i32`, line 209), the unsigned 8-bit variant carries `ℕ`, float
variants carry `ℚ`. -/
inductive AudioBufferRef where
  | F32 (frames : Nat) (chans : List (List ℚ))
  | S16 (frames : Nat) (chans : List (List ℤ))
  | U8 (frames : Nat) (chans : List (List ℕ))
  | S24 (frames : Nat) (chans : List (List ℤ))
  | F64 (frames : Nat) (chans : List (List ℚ))
  | S32 (frames : Nat) (chans : List (List ℤ))
  | unsupported
deriving DecidableEq

/-- The interleaving double loop common to every supported arm
(e.g. lines 185-189): `for frame in 0..buf.frames() \x7b for ch in
0..channels \x7b samples.push (f (buf.chan(ch)[frame])) \x7d \x7d`,
`d` standing in for the in-bounds indexing of the source. -/
def interleave {α : Type} (f : α → ℚ) (d : α) (frames : Nat)
    (chans : List (List α)) : List ℚ :=
  (List.range frames).flatMap fun fr => chans.map fun ch => f (ch.getD fr d)

/-- The normalization `match decoded` (lines 183-232): each supported
format is converted to interleaved `ℚ` samples with the source's scaling
(`/ i16::MAX = 32767`, `/ u8::MAX = 255`, `/ (1 << 23)`,
`/ i32::MAX = 2147483647`; floats pass through, `f64` narrowing being
exact in the `ℚ` model); the catch-all arm yields `none` (the `continue`
at line 230). -/
def convertBuffer : AudioBufferRef → Option (List ℚ)
  | .F32 frames chans => some (interleave (fun v => v) 0 frames chans)
  | .S16 frames chans => some (interleave (fun (v : ℤ) => (v : ℚ) / 32767) 0 frames chans)
  | .U8 frames chans => some (interleave (fun (v : ℕ) => (v : ℚ) / 255) 0 frames chans)
  | .S24 frames chans => some (interleave (fun (v : ℤ) => (v : ℚ) / 2 ^ 23) 0 frames chans)
  | .F64 frames chans => some (interleave (fun v => v) 0 frames chans)
  | .S32 frames chans => some (interleave (fun (v : ℤ) => (v : ℚ) / 2147483647) 0 frames chans)
  | .unsupported => none

/-- One packet as the decode loop sees it: `decoder.decode(&packet)`
either fails (lines 153-156) or yields a decoded buffer (line 152). -/
inductive Packet where
  | decodeErr
  | ok (buf : AudioBufferRef)
deriving DecidableEq

/-- One iteration of the decode loop body (lines 150-238) acting on the
queue: a decode error `continue`s (line 155), an unsupported format
`continue`s (line 230), otherwise the normalized samples are appended
(line 234). -/
def processPacket (q : List ℚ) (p : Packet) : List ℚ :=
  match p with
  | .decodeErr => q
  | .ok buf =>
      match convertBuffer buf with
      | none => q
      | some samples => pushSamples q samples

/-- The whole decode worker (lines 149-243): the `while let` loop folds
`processPacket` over the session's packets, and after the loop exits the
worker stores `decoder_done = true` (line 242) and terminates.  Returns
the final queue and the `decoder_done` flag. -/
def runWorker (q : List ℚ) (ps : List Packet) : List ℚ × Bool :=
  (ps.foldl processPacket q, true)

/-- Observable actions of the decode worker, for the ordering claims:
a push of normalized samples into the queue (line 234) or the single
`decoder_done.store(true)` (line 242). -/
inductive WorkerEvent where
  | push (samples : List ℚ)
  | setDone
deriving DecidableEq

/-- Events emitted while processing one packet: decode errors and
unsupported formats emit nothing, a supported frame emits one push. -/
def packetEvents : Packet → List WorkerEvent
  | .decodeErr => []
  | .ok buf =>
      match convertBuffer buf with
      | none => []
      | some samples => [.push samples]

/-- The worker's whole event trace: the packet loop's pushes in order,
then the one `decoder_done.store(true)` after the loop (line 242). -/
def workerTrace (ps : List Packet) : List WorkerEvent :=
  ps.flatMap packetEvents ++ [.setDone]

/-- The `Player` struct fields (lines 33-43) that the claims touch.
`buffer` is the `Arc<Mutex<Vec<f32>>>` field `self.buffer`; `handle`
and the device/stream objects are abstracted away. -/
structure PlayerState where
  current_path : Option String
  is_playing : Bool
  buffer : List ℚ
  autoplay_trigger : Bool
  is_decoder_done : Bool
  is_paused : Bool
  paused_flag : Bool
deriving DecidableEq

/-- Whole-system state for one moment in time: the `Player` struct plus
the session-local `sample_buf` `VecDeque` (line 107) that the callback
and decode-thread closures share, and whether the cpal stream is alive
(`self.stream`, line 37/247/252). -/
structure SystemState where
  player : PlayerState
  sampleQueue : List ℚ
  streamActive : Bool
deriving DecidableEq

namespace Player

/-- `Player::new` (lines 46-58), with an empty session queue and no
stream. -/
def new : SystemState :=
  { player := { current_path := none, is_playing := false, buffer := [],
                autoplay_trigger := false, is_decoder_done := false,
                is_paused := false, paused_flag := false },
    sampleQueue := [], streamActive := false }

/-- `Player::stop` (lines 251-256): drop the stream, clear `is_playing`
and `current_path`, and clear `self.buffer` — note the source clears the
`Vec` field `self.buffer`, not the `sample_buf` `VecDeque` the callback
drains, so `sampleQueue` is untouched here. -/
def stop (s : SystemState) : SystemState :=
  { s with streamActive := false,
           player := { s.player with is_playing := false,
                                     current_path := none,
                                     buffer := [] } }

/-- The state effects of `Player::play` (lines 60-64, 104-113, 141-148,
246-248), abstracting the probing/decoder/device I/O: first `self.stop()`
(line 61), reset `autoplay_trigger` and `is_decoder_done` (lines 63-64),
allocate a fresh empty `buffer` `Vec` (line 104, stored into
`self.buffer` at line 248 — it is never written afterwards) and a fresh
empty `sample_buf` `VecDeque` (line 107) for the new session, start the
stream (line 141), set `is_playing` and `current_path`
(lines 143-144). -/
def play (s : SystemState) (path : String) : SystemState :=
  let s1 := stop s
  { player := { s1.player with autoplay_trigger := false,
                               is_decoder_done := false,
                               is_playing := true,
                               current_path := some path,
                               buffer := [] },
    sampleQueue := [], streamActive := true }

/-- `Player::is_loaded` (lines 258-260). -/
def is_loaded (p : PlayerState) : Bool :=
  p.current_path.isSome

/-- `Player::is_done` (lines 262-264): note the source tests
`self.buffer` — the `Vec` field — not the callback's `sample_buf`. -/
def is_done (p : PlayerState) : Bool :=
  p.buffer.isEmpty && p.is_playing

/-- `Player::set_paused` (lines 266-269). -/
def set_paused (p : PlayerState) (paused : Bool) : PlayerState :=
  { p with is_paused := paused, paused_flag := paused }

/-- `Player::pause` (lines 271-273). -/
def pause (p : PlayerState) : PlayerState :=
  set_paused p true

/-- `Player::resume` (lines 275-277). -/
def resume (p : PlayerState) : PlayerState :=
  set_paused p false

end Player

/-- The decode thread of the current session appending a block of
normalized samples into the shared `sample_buf` (line 234), viewed at
the system level. -/
def decodePush (s : SystemState) (samples : List ℚ) : SystemState :=
  { s with sampleQueue := pushSamples s.sampleQueue samples }

/-- The callback-visible slice of a system state: the shared
`sample_buf` plus the three atomics the callback closure captured
(lines 107-113). -/
def callbackView (s : SystemState) : CallbackState :=
  { queue := s.sampleQueue,
    decoderDone := s.player.is_decoder_done,
    autoplayTrigger := s.player.autoplay_trigger,
    paused := s.player.paused_flag }

/-- Claim C1 (code bug): `stop()` is claimed to leave the sample queue
drained by the audio callback with length 0, but the source clears only
the vestigial `self.buffer` `Vec` (line 255), never the `sample_buf`
`VecDeque` the callback drains: after `play` followed by a decode push of
one sample, `stop` leaves that queue holding its sample (length 1), while
`is_loaded` does become false and `self.buffer` is cleared. -/
theorem c1_stop_leaves_callback_queue :
    Player.is_loaded (Player.stop (decodePush (Player.play Player.new "a.mp3") [1])).player
      = false ∧
    (Player.stop (decodePush (Player.play Player.new "a.mp3") [1])).sampleQueue.length = 1 ∧
    (Player.stop (decodePush (Player.play Player.new "a.mp3") [1])).player.buffer = [] := by
  exact ⟨rfl, rfl, rfl⟩

/-- Claim C2: on a non-paused callback invocation, after the fill loop
the stored `autoplay_trigger` is the old value or-ed with (queue now
empty and `decoder_done`); in particular it stays false when the queue
is empty but decoding is unfinished. -/
theorem c2_autoplay_trigger_iff (s : CallbackState) (n : Nat) (h : s.paused = false) :
    (audioCallback s n).2.autoplayTrigger
      = (s.autoplayTrigger || ((audioCallback s n).2.queue.isEmpty && s.decoderDone)) ∧
    (s.autoplayTrigger = false → s.decoderDone = false →
      (audioCallback s n).2.autoplayTrigger = false) := by
  constructor
  · simp only [audioCallback, h, Bool.false_eq_true, if_false]
    cases hc : ((fillBlock s.queue n).2.isEmpty && s.decoderDone) <;> simp [hc]
  · intro h1 h2
    simp [audioCallback, h, h1, h2]

/-- Witness for C2 at a concrete state: queue `[1]`, decoding
unfinished, trigger clear, not paused; the trigger stays false. -/
theorem c2_autoplay_trigger_iff_witness :
    (audioCallback ⟨[1], false, false, false⟩ 3).2.autoplayTrigger = false :=
  (c2_autoplay_trigger_iff ⟨[1], false, false, false⟩ 3 rfl).2 rfl rfl

/-- Claim C3: while `paused_flag` is set, the callback writes `0.0` into
all `n` requested slots and leaves the whole shared state — the queue in
particular — unchanged. -/
theorem c3_paused_silence (s : CallbackState) (n : Nat) (h : s.paused = true) :
    (audioCallback s n).1 = List.replicate n 0 ∧ (audioCallback s n).2 = s := by
  simp [audioCallback, h]

/-- Witness for C3 at a concrete paused state with two queued samples
and a three-slot request. -/
theorem c3_paused_silence_witness :
    (audioCallback ⟨[1, 2], false, false, true⟩ 3).1 = List.replicate 3 0 ∧
    (audioCallback ⟨[1, 2], false, false, true⟩ 3).2 = ⟨[1, 2], false, false, true⟩ :=
  c3_paused_silence ⟨[1, 2], false, false, true⟩ 3 rfl

/-- Claim C4: the queue is FIFO with silence padding — after pushing
`s1` then `s2`, a non-paused request for `n` samples outputs the first
`min (M, n)` queued samples in push order followed by `n - M` zeros
(`M` the queue length), leaves the rest of the queue, and empties the
queue whenever `M ≤ n`. -/
theorem c4_fifo_underrun (s1 s2 : List ℚ) (n : Nat) (d a : Bool) :
    (audioCallback ⟨pushSamples (pushSamples [] s1) s2, d, a, false⟩ n).1
      = (pushSamples (pushSamples [] s1) s2).take n
        ++ List.replicate (n - (pushSamples (pushSamples [] s1) s2).length) 0 ∧
    (audioCallback ⟨pushSamples (pushSamples [] s1) s2, d, a, false⟩ n).2.queue
      = (pushSamples (pushSamples [] s1) s2).drop n ∧
    ((pushSamples (pushSamples [] s1) s2).length ≤ n →
      (audioCallback ⟨pushSamples (pushSamples [] s1) s2, d, a, false⟩ n).2.queue = []) := by
  refine ⟨?_, ?_, ?_⟩ <;>
    simp [audioCallback, fillBlock_eq, List.drop_eq_nil_iff]

/-- Witness for C4: pushing `[1,2,3]` then `[4,5]` and popping 5 yields
`[1,2,3,4,5]` and an empty queue. -/
theorem c4_fifo_underrun_witness :
    (audioCallback ⟨pushSamples (pushSamples [] [1, 2, 3]) [4, 5], false, false, false⟩ 5).2.queue
      = [] :=
  (c4_fifo_underrun [1, 2, 3] [4, 5] 5 false false).2.2 (by decide)

/-- Claim C5: per-format normalization — `F32` and `F64` pass through
(`f64` narrowing exact in the `ℚ` model), `S16` divides by `32767` (so
`32767 ↦ 1` while `-32768 ↦ -32768/32767`, strictly below `-1` and about
`-1.00003`, not `-1`), `U8` divides by `255`, `S24` divides by `2^23`,
and `S32` divides by `2147483647`. -/
theorem c5_normalization :
    (∀ frames chans,
      convertBuffer (.F32 frames chans) = some (interleave (fun v => v) 0 frames chans)) ∧
    (∀ frames chans,
      convertBuffer (.F64 frames chans) = some (interleave (fun v => v) 0 frames chans)) ∧
    (∀ v : ℤ, convertBuffer (.S16 1 [[v]]) = some [(v : ℚ) / 32767]) ∧
    convertBuffer (.S16 1 [[32767]]) = some [1] ∧
    convertBuffer (.S16 1 [[-32768]]) = some [-(32768 : ℚ) / 32767] ∧
    (-(32768 : ℚ) / 32767 < -1 ∧ -(32768 : ℚ) / 32767 ≠ -1 ∧
      -(100004 : ℚ) / 100000 < -(32768 : ℚ) / 32767) ∧
    (∀ v : ℕ, convertBuffer (.U8 1 [[v]]) = some [(v : ℚ) / 255]) ∧
    convertBuffer (.U8 1 [[255]]) = some [1] ∧
    (∀ v : ℤ, convertBuffer (.S24 1 [[v]]) = some [(v : ℚ) / 2 ^ 23]) ∧
    (∀ v : ℤ, convertBuffer (.S32 1 [[v]]) = some [(v : ℚ) / 2147483647]) ∧
    convertBuffer (.S32 1 [[2147483647]]) = some [1] := by
  refine ⟨fun _ _ => rfl, fun _ _ => rfl, fun v => rfl, ?_, rfl,
    ⟨by norm_num, by norm_num, by norm_num⟩, fun v => rfl, ?_, fun v => rfl, fun v => rfl, ?_⟩ <;>
    norm_num [convertBuffer, interleave, List.range_succ]

/-- Claim C6: a per-packet decode error or an unsupported sample format
leaves the queue untouched, contributes no samples, and the worker loop
keeps processing the remaining packets. -/
theorem c6_bad_packets_skipped (q : List ℚ) (ps : List Packet) (b : AudioBufferRef)
    (h : convertBuffer b = none) :
    processPacket q .decodeErr = q ∧
    processPacket q (.ok b) = q ∧
    runWorker q (.decodeErr :: ps) = runWorker q ps ∧
    runWorker q (.ok b :: ps) = runWorker q ps := by
  have h1 : processPacket q (.ok b) = q := by simp [processPacket, h]
  exact ⟨rfl, h1, by simp [runWorker, processPacket], by simp [runWorker, h1]⟩

/-- Witness for C6 with the unsupported-format buffer: a two-sample
queue survives a bad packet unchanged. -/
theorem c6_bad_packets_skipped_witness :
    processPacket [1, 2] Packet.decodeErr = [1, 2] ∧
    processPacket [1, 2] (.ok .unsupported) = [1, 2] :=
  ⟨(c6_bad_packets_skipped [1, 2] [] .unsupported rfl).1,
   (c6_bad_packets_skipped [1, 2] [] .unsupported rfl).2.1⟩

/-- Claim C7 (code bug): `is_done()` is claimed to be false whenever the
callback's queue still holds samples and `is_playing` is true, but the
source tests the vestigial `self.buffer` `Vec` (line 263), which after
`play` is empty forever: with one sample in the callback's queue and
`is_playing` true, `is_done` returns true. -/
theorem c7_is_done_ignores_callback_queue :
    (decodePush (Player.play Player.new "a.mp3") [1]).player.is_playing = true ∧
    (decodePush (Player.play Player.new "a.mp3") [1]).sampleQueue ≠ [] ∧
    Player.is_done (decodePush (Player.play Player.new "a.mp3") [1]).player = true := by
  exact ⟨rfl, by decide, rfl⟩

/-- Claim C8: in the decode worker's event trace, the
`decoder_done.store(true)` happens exactly once, is the trace's last
event, and never occurs among the packet-processing events. -/
theorem c8_done_set_once_at_end (ps : List Packet) :
    (workerTrace ps).count WorkerEvent.setDone = 1 ∧
    (workerTrace ps).getLast? = some WorkerEvent.setDone ∧
    (ps.flatMap packetEvents).count WorkerEvent.setDone = 0 := by
  have hz : (ps.flatMap packetEvents).count WorkerEvent.setDone = 0 := by
    induction ps with
    | nil => rfl
    | cons p ps ih =>
        cases p with
        | decodeErr => simpa [packetEvents] using ih
        | ok b =>
            cases hcb : convertBuffer b <;>
              simp [packetEvents, hcb, List.count_append, List.count_cons, ih]
  refine ⟨?_, ?_, hz⟩
  · simp [workerTrace, List.count_append, hz, List.count_cons]
  · simp [workerTrace]

/-- Claim C9: neither `play` nor `stop` writes `is_paused` or
`paused_flag`; `set_paused` is their writer; and a `play` issued while
paused starts the new session still paused, so the callback emits only
silence. -/
theorem c9_play_stop_preserve_paused (s : SystemState) (p : String) (n : Nat) :
    (Player.play s p).player.is_paused = s.player.is_paused ∧
    (Player.play s p).player.paused_flag = s.player.paused_flag ∧
    (Player.stop s).player.is_paused = s.player.is_paused ∧
    (Player.stop s).player.paused_flag = s.player.paused_flag ∧
    (∀ b, (Player.set_paused s.player b).is_paused = b ∧
          (Player.set_paused s.player b).paused_flag = b) ∧
    (s.player.paused_flag = true →
      (audioCallback (callbackView (Player.play s p)) n).1 = List.replicate n 0) := by
  refine ⟨rfl, rfl, rfl, rfl, fun b => ⟨rfl, rfl⟩, fun h => ?_⟩
  have hp : (callbackView (Player.play s p)).paused = true := h
  simp [audioCallback, hp]

/-- A player paused right after construction, for the C9 witness. -/
def pausedStart : SystemState :=
  { Player.new with player := Player.pause Player.new.player }

/-- Witness for C9: starting a track on a paused player leaves the
callback emitting silence. -/
theorem c9_play_stop_preserve_paused_witness :
    (audioCallback (callbackView (Player.play pausedStart "b.flac")) 3).1
      = List.replicate 3 0 :=
  (c9_play_stop_preserve_paused pausedStart "b.flac" 3).2.2.2.2.2 rfl

/-- Claim C10: on a paused invocation the callback never writes
`autoplay_trigger`, even when the queue is empty and `decoder_done`
holds — the paused early return precedes the completion check. -/
theorem c10_paused_never_triggers (s : CallbackState) (n : Nat) (h : s.paused = true) :
    (audioCallback s n).2.autoplayTrigger = s.autoplayTrigger := by
  simp [audioCallback, h]

/-- Witness for C10 at the critical state: queue empty, decoding
finished, paused — the trigger stays false. -/
theorem c10_paused_never_triggers_witness :
    (audioCallback ⟨[], true, false, true⟩ 4).2.autoplayTrigger = false :=
  c10_paused_never_triggers ⟨[], true, false, true⟩ 4 rfl
